import Mathlib

/-!
Shallow embedding of the HR-chatbot conversation workflow (chatbot.py):
the ChatState record, the five pipeline stages, the LangGraph routing, and
the inbound chatbot entry point.  External collaborators (the LLM oracle,
the PostgreSQL database, the policy mapping) are modelled as components of
an explicit environment; exceptions raised by them are modelled as Option
and Except values.  Python strings are Lean String values; helper functions
reimplement the Python string operations (strip, replace, lower, substring
containment, join) as structurally recursive, kernel-computable functions.
-/

/-- Python substring test (the `in` operator) on lists of characters:
true iff the pattern occurs contiguously in the list. -/
def substrAux (p : List Char) : List Char → Bool
  | [] => p.isEmpty
  | c :: t => p.isPrefixOf (c :: t) || substrAux p t

/-- Python `pat in s` for strings. -/
def strContains (s pat : String) : Bool :=
  substrAux pat.data s.data

/-- Python `str.lower()` (ASCII case folding, as used by the source). -/
def strLower (s : String) : String :=
  String.mk (s.data.map Char.toLower)

/-- Characters stripped by Python `str.strip()`. -/
def trimList (l : List Char) : List Char :=
  ((l.dropWhile Char.isWhitespace).reverse.dropWhile Char.isWhitespace).reverse

/-- Python `str.strip()`. -/
def strTrim (s : String) : String :=
  String.mk (trimList s.data)

/-- Python `str.replace(p, r)` on character lists: replace every
non-overlapping occurrence of `p`, scanning left to right.  The fuel is
one unit per character; each step consumes one unit and shortens the list
by at least one character, so fuel equal to the list length never runs
out. -/
def replaceAllAux (p r : List Char) : Nat → List Char → List Char
  | 0, _ => []
  | _, [] => []
  | Nat.succ fuel, c :: t =>
    if 0 < p.length && p.isPrefixOf (c :: t) then
      r ++ replaceAllAux p r fuel (List.drop (p.length - 1) t)
    else
      c :: replaceAllAux p r fuel t

/-- Python `str.replace(p, r)` on character lists. -/
def replaceAll (p r l : List Char) : List Char :=
  replaceAllAux p r l.length l

/-- Python `str.replace(p, r)` for strings. -/
def strReplace (s p r : String) : String :=
  String.mk (replaceAll p.data r.data s.data)

/-- Python `sep.join(parts)`. -/
def joinSep (sep : String) : List String → String
  | [] => ""
  | x :: xs => xs.foldl (fun acc y => acc ++ sep ++ y) x

/-- Removal of markdown code fences from the oracle's SQL output:
`re.sub(r"```sql|```", "", text)`, scanning left to right and preferring
the longer alternative at each position. -/
def stripFencesAux : Nat → List Char → List Char
  | 0, _ => []
  | _, [] => []
  | Nat.succ fuel, c :: t =>
    if ( "```sql".data).isPrefixOf (c :: t) then
      stripFencesAux fuel (List.drop 5 t)
    else if ( "```".data).isPrefixOf (c :: t) then
      stripFencesAux fuel (List.drop 2 t)
    else
      c :: stripFencesAux fuel t

/-- Removal of markdown code fences, fuelled by the list length. -/
def strip_code_fences (l : List Char) : List Char :=
  stripFencesAux l.length l

/-- ChatState (chatbot.py lines 17-24): the conversation record threaded
through every stage.  `messages` holds the contents of the HumanMessage
turns. -/
structure ChatState where
  messages : List String
  user_email : String
  intent : String
  response : String
  name : Option String
  requested_field : Option String
  userData : Option (List (String × String))
deriving DecidableEq

/-- A row returned by the database, as an ordered field-to-value mapping
(RealDictCursor); values are taken after Python `str` rendering. -/
abbrev Row : Type := List (String × String)

/-- One row of the schema introspection result (table, column, type). -/
structure SchemaRow where
  table_name : String
  column_name : String
  data_type : String
deriving DecidableEq

/-- One call to an external collaborator made by a stage. -/
inductive ExtCall where
  | oracleCall (prompt : String)
  | dbCall (sql : String)
  | schemaCall
deriving DecidableEq

/-- The external world: the LLM oracle (None models an exception or a
missing response field), the schema introspection result (errors are
already converted to the empty list by get_database_schema), the database
(Except.error carries the driver error text), and the policy mapping in
its iteration order. -/
structure Env where
  oracle : String → Option String
  schema : List SchemaRow
  db : String → Except String (List Row)
  policies : List (String × String)

/-- The latest user message: `state.messages[-1].content if state.messages
else ""`. -/
def last_message (s : ChatState) : String :=
  (s.messages.getLast?).getD ""

/-- The fixed classification prompt (chatbot.py lines 58-70). -/
def classify_prompt (message : String) : String :=
  "\n            Classify this message into one of these categories:\n            - 'user_details' (if the user asks about their name, email, phone number, or address)\n            - 'leave_balance' (if the user asks about their remaining leave balance)\n            - 'attendance' (if the user asks about their attendance records)\n            - 'paid_leave' (if the user asks about their paid leave records)\n            - 'hr_policy' (if the user asks about HR policies)\n            - 'general' (for anything else)\n\n            Only return the category name without extra text.\n\n            Message: '" ++ message ++ "'\n            "

/-- Stage 1, classify_intent (chatbot.py lines 48-82): empty message skips
the oracle and yields "general"; otherwise the oracle's answer is stripped
and its quote characters removed; an oracle failure falls back to
"general". -/
def classify_intent (env : Env) (s : ChatState) : ChatState × List ExtCall :=
  let message := last_message s
  if message = "" then
    ({ s with intent := "general" }, [])
  else
    let prompt := classify_prompt message
    match env.oracle prompt with
    | some text =>
        ({ s with intent := strReplace (strReplace (strTrim text) "'" "") "\"" "" },
         [ ExtCall.oracleCall prompt])
    | none => ({ s with intent := "general" }, [ ExtCall.oracleCall prompt])

/-- The fixed phrase set for the all-employees override (line 131). -/
def all_employees_keywords : List String :=
  [ "all employees", "list of employees", "everyone"]

/-- Case-insensitive detection of an all-employees request (line 132). -/
def is_fetching_all_employees (message : String) : Bool :=
  all_employees_keywords.any (fun keyword => strContains (strLower message) keyword)

/-- Instruction chosen when all employees are requested (line 136). -/
def no_filter_instruction : String :=
  "- Do NOT filter by email_address. Retrieve all records."

/-- Instruction chosen otherwise, with the caller's email interpolated
verbatim (line 138). -/
def email_filter_instruction (email : String) : String :=
  "- Ensure the WHERE clause includes email_address = '" ++ email ++ "'"

/-- The filtering instruction selected by generate_sql_query. -/
def filtering_instruction (message email : String) : String :=
  if is_fetching_all_employees message then no_filter_instruction
  else email_filter_instruction email

/-- The schema listing embedded in the SQL prompt (lines 126-128). -/
def schema_string (rows : List SchemaRow) : String :=
  joinSep "\n" (rows.map (fun r =>
    "Table: " ++ r.table_name ++ ", Column: " ++ r.column_name ++ " (" ++ r.data_type ++ ")"))

/-- Fixed fragments of the SQL-synthesis prompt (lines 140-155). -/
def sql_prompt_pre : String :=
  "\n    You are an SQL expert. Based on the following database schema, generate an optimized SQL query for PostgreSQL.\n\n    Schema Information:\n    "

/-- Fragment between the schema listing and the user request. -/
def sql_prompt_mid1 : String :=
  "\n\n    User Request:\n    "

/-- Fragment between the user request and the filtering instruction. -/
def sql_prompt_mid2 : String :=
  "\n\n    "

/-- Fragment after the filtering instruction. -/
def sql_prompt_post : String :=
  "\n\n    - ONLY use column names that exist in the schema above.\n    - If column names have uppercase letters, wrap them in double quotes (e.g., \"fromDate\").\n    - Provide **only the SQL query** without any explanation, introduction, or additional text.\n    - Do **not** include \"Here is your query\" or any extra words. Only output the raw SQL.\n    "

/-- The composed SQL-synthesis prompt. -/
def sql_prompt (schema_str message instruction : String) : String :=
  sql_prompt_pre ++ schema_str ++ sql_prompt_mid1 ++ message ++ sql_prompt_mid2 ++ instruction ++ sql_prompt_post

/-- Stage 2, generate_sql_query (chatbot.py lines 107-169): fails with a
schema-unavailable response when introspection yields nothing; otherwise
asks the oracle with the composed prompt, strips code fences from its
answer, and falls back to a sentinel string when the oracle fails. -/
def generate_sql_query (env : Env) (s : ChatState) : ChatState × List ExtCall :=
  let message := last_message s
  let schema_info := env.schema
  if schema_info.isEmpty then
    ({ s with response := "Database schema unavailable." }, [ ExtCall.schemaCall])
  else
    let prompt := sql_prompt (schema_string schema_info) message
      (filtering_instruction message s.user_email)
    match env.oracle prompt with
    | some text =>
        ({ s with response := strTrim (String.mk (strip_code_fences (strTrim text).data)) },
         [ ExtCall.schemaCall, ExtCall.oracleCall prompt])
    | none =>
        ({ s with response := "Failed to generate SQL query." },
         [ ExtCall.schemaCall, ExtCall.oracleCall prompt])

/-- Python `row[key]` on a result row. -/
def lookupRow (k : String) : Row → Option String
  | [] => none
  | (k2, v) :: rest => if k = k2 then some v else lookupRow k rest

/-- Collects `row[key]` over all rows; None models a KeyError. -/
def lookupAll (k : String) : List Row → Option (List String)
  | [] => some []
  | row :: rest =>
    match lookupRow k row, lookupAll k rest with
    | some v, some vs => some (v :: vs)
    | _, _ => none

/-- format_response (chatbot.py lines 193-212): empty result set, single
column of the first row, or multiple columns.  None models the KeyError a
ragged row would raise. -/
def format_response (data : List Row) : Option String :=
  match data with
  | [] => some "No results found."
  | first :: _ =>
    match first.map Prod.fst with
    | [key] =>
      match lookupAll key data with
      | some values =>
          some ( "The " ++ key ++ "s are: " ++ joinSep ", " values ++ ".")
      | none => none
    | _ =>
      some ( "Here is the requested data:\n" ++
        joinSep "\n" (data.map (fun row =>
          joinSep ", " (row.map (fun kv => kv.1 ++ ": " ++ kv.2)))))

/-- Stage 3, execute_sql (chatbot.py lines 172-190): an empty query is not
executed; any database error (and any KeyError raised while formatting
inside the same try block) is caught and converted to the generic failure
message. -/
def execute_sql (env : Env) (s : ChatState) : ChatState × List ExtCall :=
  let sql_query := s.response
  if sql_query = "" then
    ({ s with response := "No SQL query to execute." }, [])
  else
    match env.db sql_query with
    | Except.ok result =>
      match format_response result with
      | some text => ({ s with response := text }, [ ExtCall.dbCall sql_query])
      | none => ({ s with response := "Database query failed." }, [ ExtCall.dbCall sql_query])
    | Except.error _ =>
        ({ s with response := "Database query failed." }, [ ExtCall.dbCall sql_query])

/-- The policy scan loop of get_policy (chatbot.py lines 218-219). -/
def findPolicy (message : String) : List (String × String) → Option String
  | [] => none
  | (key, value) :: rest =>
    if strContains (strLower message) (strLower key) then some value
    else findPolicy message rest

/-- Stage 4, get_policy (chatbot.py lines 215-222): first case-insensitive
substring match in iteration order wins; no match yields the fixed
not-found response.  No external call is made. -/
def get_policy (env : Env) (s : ChatState) : ChatState × List ExtCall :=
  let message := last_message s
  match findPolicy message env.policies with
  | some value => ({ s with response := value }, [])
  | none => ({ s with response := "Policy not found." }, [])

/-- Stage 5, generate_response (chatbot.py lines 225-252): prompt includes
the prior answer unless the intent is "general"; the oracle's answer has
the placeholder replaced by the sender's name (default "User"); oracle
failure yields the fixed apology. -/
def generate_response (env : Env) (s : ChatState) : ChatState × List ExtCall :=
  let message := last_message s
  let user_name :=
    match s.name with
    | some n => if n = "" then "User" else n
    | none => "User"
  let prompt :=
    if s.intent ≠ "general" then
      "Respond as an HR assistant.\nUser: " ++ message ++ " answer: " ++ s.response
    else
      "Respond as an HR assistant.\nUser: " ++ message
  match env.oracle prompt with
  | some text =>
      ({ s with response := strReplace (strTrim text) "[Your Name]" user_name },
       [ ExtCall.oracleCall prompt])
  | none =>
      ({ s with response := "I'm sorry, I couldn't process your request." },
       [ ExtCall.oracleCall prompt])

/-- The SQL-group intents (chatbot.py line 263). -/
def sql_intents : List String :=
  [ "user_details", "leave_balance", "attendance", "paid_leave"]

/-- The conditional router on the classified intent (lines 262-271). -/
def intent_router (s : ChatState) : String :=
  if s.intent ∈ sql_intents then "generate_sql_query"
  else if s.intent = "hr_policy" then "get_policy"
  else "generate_response"

/-- The workflow graph's outgoing edge of each node (lines 273-277);
None marks the terminal node. -/
def next_node (name : String) (s : ChatState) : Option String :=
  if name = "__start__" then some "classify_intent"
  else if name = "classify_intent" then some (intent_router s)
  else if name = "generate_sql_query" then some "execute_sql"
  else if name = "execute_sql" then some "generate_response"
  else if name = "get_policy" then some "generate_response"
  else none

/-- Runs the stage attached to a node name; "__start__" has no stage. -/
def run_stage (name : String) (env : Env) (s : ChatState) : ChatState :=
  if name = "classify_intent" then (classify_intent env s).1
  else if name = "generate_sql_query" then (generate_sql_query env s).1
  else if name = "execute_sql" then (execute_sql env s).1
  else if name = "get_policy" then (get_policy env s).1
  else if name = "generate_response" then (generate_response env s).1
  else s

/-- Fuelled execution of the workflow graph from a node, returning the
list of visited node names and the final state; None on fuel exhaustion. -/
def runFrom (env : Env) : Nat → String → ChatState → Option (List String × ChatState)
  | 0, _, _ => none
  | Nat.succ fuel, name, s =>
    let s2 := run_stage name env s
    match next_node name s2 with
    | none => some ([name], s2)
    | some nxt =>
      match runFrom env fuel nxt s2 with
      | none => none
      | some (tr, sf) => some (name :: tr, sf)

/-- A Python value arriving from the JSON request body: a string, or a
non-string value with the given truthiness. -/
inductive PyVal where
  | str (s : String)
  | other (truthy : Bool)
deriving DecidableEq

/-- Python truthiness. -/
def PyVal.truthy : PyVal → Bool
  | .str s => if s = "" then false else true
  | .other b => b

/-- Python `isinstance(v, str)`. -/
def PyVal.isStr : PyVal → Bool
  | .str _ => true
  | .other _ => false

/-- The inbound entry point chatbot(message, user_email) (chatbot.py lines
285-307): validates the inputs, then invokes the workflow on a fresh
ChatState; returns the response text together with the list of visited
pipeline nodes.  A truthy non-string user_email fails ChatState
construction and is caught by the outer handler. -/
def chatbot (env : Env) (message user_email : PyVal) : String × List String :=
  if !message.truthy || !message.isStr || !user_email.truthy then
    ( "Invalid input. Please provide a valid message.", [])
  else
    match message, user_email with
    | .str m, .str email =>
      match runFrom env 10 "__start__"
          { messages := [m], user_email := email, intent := "general", response := "",
            name := none, requested_field := none, userData := none } with
      | some (tr, sf) => (sf.response, tr)
      | none => ( "An internal error occurred. Please try again.", [])
    | _, _ => ( "An internal error occurred. Please try again.", [])

/-! Shared facts about the executable substring test, and concrete
environments and states used to instantiate the theorems below. -/

theorem substrAux_eq_true_iff (p : List Char) (l : List Char) :
    substrAux p l = true ↔ p <:+: l := by
  induction l with
  | nil =>
    show p.isEmpty = true ↔ p <:+: []
    rw [List.isEmpty_iff, List.infix_nil]
  | cons c t ih =>
    show (p.isPrefixOf (c :: t) || substrAux p t) = true ↔ p <:+: c :: t
    rw [Bool.or_eq_true, ih, List.infix_cons_iff, List.isPrefixOf_iff_prefix]

theorem strContains_iff (s pat : String) :
    strContains s pat = true ↔ pat.data <:+: s.data := by
  unfold strContains
  exact substrAux_eq_true_iff pat.data s.data

theorem length_le_of_strContains (s pat : String) (h : strContains s pat = true) :
    pat.length ≤ s.length := by
  have h2 := (strContains_iff s pat).mp h
  exact h2.length_le

/-- Environment with an unreachable oracle, empty schema, a failing
database, and one policy entry. -/
def env0 : Env :=
  { oracle := fun _ => none, schema := [],
    db := fun _ => Except.error "connection refused",
    policies := [( "leave", "Leave policy text")] }

/-- Environment with a one-row schema. -/
def env1 : Env :=
  { oracle := fun _ => none,
    schema := [{ table_name := "employees", column_name := "email_address", data_type := "text" }],
    db := fun _ => Except.error "connection refused", policies := [] }

/-- Environment whose oracle always answers with the name placeholder. -/
def env2 : Env :=
  { oracle := fun _ => some "Hello [Your Name]", schema := [],
    db := fun _ => Except.error "e", policies := [] }

/-- A conversation state with the reserved optional fields unset. -/
def mkState (msgs : List String) (intent response : String) : ChatState :=
  { messages := msgs, user_email := "a@b.c", intent := intent, response := response,
    name := none, requested_field := none, userData := none }

/-- C1: leaving classify_intent, the workflow takes exactly one of three
paths keyed on the intent field: a SQL-group intent runs
generate_sql_query, execute_sql, generate_response in that order; the
hr_policy intent runs get_policy then generate_response, never visiting
the SQL nodes; any other intent goes directly to generate_response; and
every run terminates after generate_response with no repeated node and no
return to classify_intent. -/
theorem router_paths (env : Env) (s : ChatState) :
    (s.intent ∈ sql_intents →
      (runFrom env 3 (intent_router s) s).map Prod.fst =
        some [ "generate_sql_query", "execute_sql", "generate_response"])
  ∧ (s.intent = "hr_policy" →
      (runFrom env 3 (intent_router s) s).map Prod.fst =
        some [ "get_policy", "generate_response"])
  ∧ (s.intent ∉ sql_intents → s.intent ≠ "hr_policy" →
      (runFrom env 3 (intent_router s) s).map Prod.fst =
        some [ "generate_response"])
  ∧ (∃ tr, (runFrom env 3 (intent_router s) s).map Prod.fst = some tr
      ∧ "classify_intent" ∉ tr ∧ tr.Nodup ∧ tr.getLast? = some "generate_response") := by
  have hsql : s.intent ∈ sql_intents →
      (runFrom env 3 (intent_router s) s).map Prod.fst =
        some [ "generate_sql_query", "execute_sql", "generate_response"] := by
    intro h
    have hr : intent_router s = "generate_sql_query" := by
      unfold intent_router
      rw [if_pos h]
    rw [hr]
    rfl
  have hpol : s.intent = "hr_policy" →
      (runFrom env 3 (intent_router s) s).map Prod.fst =
        some [ "get_policy", "generate_response"] := by
    intro h
    have hr : intent_router s = "get_policy" := by
      unfold intent_router
      rw [h]
      rfl
    rw [hr]
    rfl
  have hgen : s.intent ∉ sql_intents → s.intent ≠ "hr_policy" →
      (runFrom env 3 (intent_router s) s).map Prod.fst =
        some [ "generate_response"] := by
    intro h1 h2
    have hr : intent_router s = "generate_response" := by
      unfold intent_router
      rw [if_neg h1, if_neg h2]
    rw [hr]
    rfl
  refine ⟨hsql, hpol, hgen, ?_⟩
  by_cases h1 : s.intent ∈ sql_intents
  · exact ⟨_, hsql h1, by decide, by decide, by decide⟩
  · by_cases h2 : s.intent = "hr_policy"
    · exact ⟨_, hpol h2, by decide, by decide, by decide⟩
    · exact ⟨_, hgen h1 h2, by decide, by decide, by decide⟩

/-- Witness for C1: the three paths at concrete states with intents
user_details, hr_policy, and the unrecognized label banana. -/
theorem router_paths_witness :
    ("user_details" : String) ∈ sql_intents
  ∧ (runFrom env0 3 (intent_router (mkState [ "hi"] "user_details" ""))
      (mkState [ "hi"] "user_details" "")).map Prod.fst =
      some [ "generate_sql_query", "execute_sql", "generate_response"]
  ∧ (runFrom env0 3 (intent_router (mkState [ "hi"] "hr_policy" ""))
      (mkState [ "hi"] "hr_policy" "")).map Prod.fst =
      some [ "get_policy", "generate_response"]
  ∧ (runFrom env0 3 (intent_router (mkState [ "hi"] "banana" ""))
      (mkState [ "hi"] "banana" "")).map Prod.fst =
      some [ "generate_response"] :=
  ⟨by decide,
   (router_paths env0 (mkState [ "hi"] "user_details" "")).1 (by decide),
   (router_paths env0 (mkState [ "hi"] "hr_policy" "")).2.1 rfl,
   (router_paths env0 (mkState [ "hi"] "banana" "")).2.2.1 (by decide) (by decide)⟩

theorem lookupAll_map_single (k : String) (vs : List String) :
    lookupAll k (vs.map (fun v => [(k, v)])) = some vs := by
  induction vs with
  | nil => rfl
  | cons v rest ih =>
    simp [lookupAll, lookupRow, ih]

/-- C2: format_response yields "No results found." on the empty row list;
on a non-empty list whose rows each carry exactly the one key k, a single
sentence naming the key, the values in row order joined by ", ", and a
trailing period; and on rows whose first row has several columns, the
fixed header line followed by one line per row of comma-joined key: value
pairs, rows joined by newlines. -/
theorem format_response_spec :
    format_response [] = some "No results found."
  ∧ (∀ (k : String) (vs : List String), vs ≠ [] →
      format_response (vs.map (fun v => [(k, v)])) =
        some ( "The " ++ k ++ "s are: " ++ joinSep ", " vs ++ "."))
  ∧ (∀ (first : Row) (rest : List Row), 2 ≤ first.length →
      format_response (first :: rest) =
        some ( "Here is the requested data:\n" ++
          joinSep "\n" ((first :: rest).map (fun row =>
            joinSep ", " (row.map (fun kv => kv.1 ++ ": " ++ kv.2)))))) := by
  refine ⟨rfl, ?_, ?_⟩
  · intro k vs hvs
    cases vs with
    | nil => exact absurd rfl hvs
    | cons v rest =>
      have hl := lookupAll_map_single k (v :: rest)
      simp only [List.map_cons] at hl
      simp [format_response, hl]
  · intro first rest h2
    cases first with
    | nil => simp at h2
    | cons a t =>
      cases t with
      | nil => simp at h2
      | cons b t2 =>
        simp [format_response]

/-- Witness for C2: the three worked examples of the specification. -/
theorem format_response_spec_witness :
    format_response [] = some "No results found."
  ∧ ([ "Alice", "Bob"] : List String) ≠ []
  ∧ format_response [[( "name", "Alice")], [( "name", "Bob")]] =
      some "The names are: Alice, Bob."
  ∧ 2 ≤ ([( "name", "Alice"), ( "age", "30")] : Row).length
  ∧ format_response [[( "name", "Alice"), ( "age", "30")]] =
      some "Here is the requested data:\nname: Alice, age: 30" :=
  ⟨format_response_spec.1,
   by decide,
   format_response_spec.2.1 "name" [ "Alice", "Bob"] (by decide),
   by decide,
   format_response_spec.2.2 [( "name", "Alice"), ( "age", "30")] [] (by decide)⟩

/-- C3: a falsy or non-string message, or a falsy user_email, makes
chatbot return the fixed invalid-input response with no pipeline node
visited; the function is total, so no exception reaches the caller. -/
theorem chatbot_invalid_input (env : Env) (message user_email : PyVal)
    (h : message.truthy = false ∨ message.isStr = false ∨ user_email.truthy = false) :
    chatbot env message user_email = ( "Invalid input. Please provide a valid message.", []) := by
  unfold chatbot
  rcases h with h | h | h <;> simp [h]

/-- Witness for C3: empty message, non-string message, and falsy
user_email each yield the fixed invalid-input response. -/
theorem chatbot_invalid_input_witness :
    (PyVal.str "").truthy = false
  ∧ (PyVal.other true).isStr = false
  ∧ (PyVal.other false).truthy = false
  ∧ chatbot env0 (PyVal.str "") (PyVal.str "a@b.c")
    = ( "Invalid input. Please provide a valid message.", [])
  ∧ chatbot env0 (PyVal.other true) (PyVal.str "a@b.c")
    = ( "Invalid input. Please provide a valid message.", [])
  ∧ chatbot env0 (PyVal.str "hello") (PyVal.other false)
    = ( "Invalid input. Please provide a valid message.", []) :=
  ⟨by decide, by decide, by decide,
   chatbot_invalid_input env0 (PyVal.str "") (PyVal.str "a@b.c") (Or.inl (by decide)),
   chatbot_invalid_input env0 (PyVal.other true) (PyVal.str "a@b.c") (Or.inr (Or.inl (by decide))),
   chatbot_invalid_input env0 (PyVal.str "hello") (PyVal.other false) (Or.inr (Or.inr (by decide)))⟩

/-- C4: when the message list is empty or the latest message is the empty
string, classify_intent sets intent to "general", changes nothing else,
and makes no external call (in particular none to the oracle). -/
theorem classify_intent_empty_skips_oracle (env : Env) (s : ChatState)
    (h : s.messages = [] ∨ last_message s = "") :
    classify_intent env s = ({ s with intent := "general" }, []) := by
  have hm : last_message s = "" := by
    rcases h with h | h
    · simp [last_message, h]
    · exact h
  unfold classify_intent
  simp [hm]

/-- Witness for C4: a state with no messages, under an oracle that would
answer, still classifies to "general" with no call made. -/
theorem classify_intent_empty_skips_oracle_witness :
    (mkState [] "general" "").messages = []
  ∧ classify_intent env2 (mkState [] "general" "")
    = ({ mkState [] "general" "" with intent := "general" }, []) :=
  ⟨rfl,
   classify_intent_empty_skips_oracle env2 (mkState [] "general" "") (Or.inl rfl)⟩

/-- C5: the synthesizer instructs the oracle not to filter by email
exactly when the message contains, case-insensitively, one of the three
fixed phrases; in every other case the selected instruction tells the
oracle to put email_address = '<caller's email>' in the WHERE clause, the
email interpolated verbatim, and that instruction occurs in the composed
prompt; the prompt sent by generate_sql_query to the oracle is the
composed one. -/
theorem filtering_instruction_spec :
    (∀ message : String, is_fetching_all_employees message = true ↔
       ∃ kw ∈ all_employees_keywords, kw.data <:+: (strLower message).data)
  ∧ (∀ message email : String, is_fetching_all_employees message = true →
       filtering_instruction message email = no_filter_instruction)
  ∧ (∀ message email : String, is_fetching_all_employees message = false →
       filtering_instruction message email = email_filter_instruction email
       ∧ email_filter_instruction email =
           "- Ensure the WHERE clause includes email_address = '" ++ email ++ "'"
       ∧ ∀ schema_str : String,
           strContains (sql_prompt schema_str message (filtering_instruction message email))
             (email_filter_instruction email) = true)
  ∧ (∀ (env : Env) (s : ChatState), env.schema ≠ [] →
       (generate_sql_query env s).2 =
         [ ExtCall.schemaCall,
           ExtCall.oracleCall (sql_prompt (schema_string env.schema) (last_message s)
             (filtering_instruction (last_message s) s.user_email))]) := by
  refine ⟨?_, ?_, ?_, ?_⟩
  · intro message
    unfold is_fetching_all_employees
    rw [List.any_eq_true]
    constructor
    · rintro ⟨kw, hkw, hc⟩
      exact ⟨kw, hkw, (strContains_iff _ _).mp hc⟩
    · rintro ⟨kw, hkw, hc⟩
      exact ⟨kw, hkw, (strContains_iff _ _).mpr hc⟩
  · intro message email h
    unfold filtering_instruction
    rw [h]
    rfl
  · intro message email h
    have hfi : filtering_instruction message email = email_filter_instruction email := by
      unfold filtering_instruction
      rw [h]
      rfl
    refine ⟨hfi, rfl, ?_⟩
    intro schema_str
    rw [hfi, strContains_iff]
    unfold sql_prompt
    refine ⟨sql_prompt_pre.data ++ schema_str.data ++ sql_prompt_mid1.data ++ message.data
      ++ sql_prompt_mid2.data, sql_prompt_post.data, ?_⟩
    simp only [String.data_append, List.append_assoc]
  · intro env s hs
    cases hsc : env.schema with
    | nil => exact absurd hsc hs
    | cons a t =>
      unfold generate_sql_query
      rw [hsc]
      simp only [List.isEmpty_cons]
      cases env.oracle (sql_prompt (schema_string (a :: t)) (last_message s)
          (filtering_instruction (last_message s) s.user_email)) <;> simp

/-- Witness for C5: an all-employees request selects the no-filter
instruction; an ordinary request selects the email filter, which occurs
in the composed prompt, and generate_sql_query sends that prompt. -/
theorem filtering_instruction_spec_witness :
    is_fetching_all_employees "Show me ALL employees" = true
  ∧ filtering_instruction "Show me ALL employees" "a@b.c" = no_filter_instruction
  ∧ is_fetching_all_employees "what is my leave balance" = false
  ∧ filtering_instruction "what is my leave balance" "a@b.c" = email_filter_instruction "a@b.c"
  ∧ strContains (sql_prompt "sch" "what is my leave balance"
        (filtering_instruction "what is my leave balance" "a@b.c"))
      (email_filter_instruction "a@b.c") = true
  ∧ env1.schema ≠ []
  ∧ (generate_sql_query env1 (mkState [ "what is my leave balance"] "leave_balance" "")).2 =
      [ ExtCall.schemaCall,
        ExtCall.oracleCall (sql_prompt (schema_string env1.schema)
          (last_message (mkState [ "what is my leave balance"] "leave_balance" ""))
          (filtering_instruction
            (last_message (mkState [ "what is my leave balance"] "leave_balance" "")) "a@b.c"))] :=
  ⟨by decide,
   filtering_instruction_spec.2.1 "Show me ALL employees" "a@b.c" (by decide),
   by decide,
   (filtering_instruction_spec.2.2.1 "what is my leave balance" "a@b.c" (by decide)).1,
   (filtering_instruction_spec.2.2.1 "what is my leave balance" "a@b.c" (by decide)).2.2 "sch",
   by decide,
   filtering_instruction_spec.2.2.2 env1 (mkState [ "what is my leave balance"] "leave_balance" "")
     (by decide)⟩

theorem findPolicy_eq_none (message : String) (ps : List (String × String))
    (h : ∀ kv ∈ ps, strContains (strLower message) (strLower kv.1) = false) :
    findPolicy message ps = none := by
  induction ps with
  | nil => rfl
  | cons kv rest ih =>
    obtain ⟨k, v⟩ := kv
    have hk : strContains (strLower message) (strLower k) = false :=
      h (k, v) (List.mem_cons_self _ _)
    unfold findPolicy
    rw [hk]
    simp only [Bool.false_eq_true, if_false]
    exact ih (fun kv2 hkv2 => h kv2 (List.mem_cons_of_mem _ hkv2))

theorem findPolicy_eq_first_match (message : String) :
    ∀ (ps : List (String × String)) (i : Nat) (h : i < ps.length),
    strContains (strLower message) (strLower (ps.get ⟨i, h⟩).1) = true →
    (∀ (j : Nat) (hj : j < i),
      strContains (strLower message) (strLower (ps.get ⟨j, hj.trans h⟩).1) = false) →
    findPolicy message ps = some (ps.get ⟨i, h⟩).2 := by
  intro ps
  induction ps with
  | nil =>
    intro i h
    exact absurd h (by simp)
  | cons kv rest ih =>
    intro i h hit before
    obtain ⟨k, v⟩ := kv
    cases i with
    | zero =>
      have hit0 : strContains (strLower message) (strLower k) = true := hit
      show findPolicy message ((k, v) :: rest) = some v
      unfold findPolicy
      rw [hit0]
      simp
    | succ n =>
      have h0 : strContains (strLower message) (strLower k) = false :=
        before 0 (Nat.succ_pos n)
      show findPolicy message ((k, v) :: rest) = some ((rest.get ⟨n, Nat.lt_of_succ_lt_succ h⟩).2)
      unfold findPolicy
      rw [h0]
      simp only [Bool.false_eq_true, if_false]
      exact ih n (Nat.lt_of_succ_lt_succ h) hit
        (fun j hj => before (j + 1) (Nat.succ_lt_succ hj))

/-- C6: get_policy makes no external call; when no policy key is a
case-insensitive substring of the message it answers "Policy not found.";
and when position i holds the first matching key in iteration order, it
answers that policy's text verbatim, leaving every other field unchanged. -/
theorem get_policy_spec (env : Env) (s : ChatState) :
    (get_policy env s).2 = []
  ∧ ((∀ kv ∈ env.policies,
        strContains (strLower (last_message s)) (strLower kv.1) = false) →
      (get_policy env s).1 = { s with response := "Policy not found." })
  ∧ (∀ (i : Nat) (h : i < env.policies.length),
      strContains (strLower (last_message s)) (strLower (env.policies.get ⟨i, h⟩).1) = true →
      (∀ (j : Nat) (hj : j < i),
        strContains (strLower (last_message s)) (strLower (env.policies.get ⟨j, hj.trans h⟩).1) = false) →
      (get_policy env s).1 = { s with response := (env.policies.get ⟨i, h⟩).2 }) := by
  refine ⟨?_, ?_, ?_⟩
  · simp only [get_policy]
    cases findPolicy (last_message s) env.policies <;> rfl
  · intro hnone
    simp only [get_policy]
    rw [findPolicy_eq_none (last_message s) env.policies hnone]
  · intro i h hit before
    simp only [get_policy]
    rw [findPolicy_eq_first_match (last_message s) env.policies i h hit before]

/-- Witness for C6: the specification's worked example, and a message
matching no key. -/
theorem get_policy_spec_witness :
    strContains (strLower (last_message (mkState [ "What is the LEAVE policy?"] "hr_policy" "")))
      (strLower ((env0.policies.get ⟨0, by decide⟩).1)) = true
  ∧ (get_policy env0 (mkState [ "What is the LEAVE policy?"] "hr_policy" "")).1
    = { mkState [ "What is the LEAVE policy?"] "hr_policy" "" with response := "Leave policy text" }
  ∧ (get_policy env0 (mkState [ "When is payday?"] "hr_policy" "")).1
    = { mkState [ "When is payday?"] "hr_policy" "" with response := "Policy not found." } := by
  refine ⟨by decide, ?_, ?_⟩
  · exact (get_policy_spec env0 (mkState [ "What is the LEAVE policy?"] "hr_policy" "")).2.2
      0 (by decide) (by decide) (fun j hj => absurd hj (Nat.not_lt_zero j))
  · exact (get_policy_spec env0 (mkState [ "When is payday?"] "hr_policy" "")).2.1 (by decide)

/-- C7: execute_sql is a total function, so no database exception reaches
its caller; on any database error the response becomes exactly the
generic "Database query failed." regardless of the error text or the SQL,
and that constant cannot contain any error text or SQL longer than its
own 22 characters. -/
theorem execute_sql_error_generic (env : Env) (s : ChatState) (e : String)
    (hne : s.response ≠ "") (herr : env.db s.response = Except.error e) :
    (execute_sql env s).1 = { s with response := "Database query failed." }
  ∧ (execute_sql env s).2 = [ ExtCall.dbCall s.response]
  ∧ (22 < e.length → strContains (execute_sql env s).1.response e = false)
  ∧ (22 < s.response.length →
      strContains (execute_sql env s).1.response s.response = false) := by
  have hmain : execute_sql env s
      = ({ s with response := "Database query failed." }, [ ExtCall.dbCall s.response]) := by
    unfold execute_sql
    simp [hne, herr]
  have hshort : ∀ pat : String, 22 < pat.length →
      strContains "Database query failed." pat = false := by
    intro pat hl
    cases hcc : strContains "Database query failed." pat with
    | false => rfl
    | true =>
      have hle := length_le_of_strContains _ _ hcc
      rw [show ("Database query failed." : String).length = 22 from rfl] at hle
      omega
  refine ⟨by rw [hmain], by rw [hmain], ?_, ?_⟩
  · intro hl
    rw [hmain]
    exact hshort e hl
  · intro hl
    rw [hmain]
    exact hshort s.response hl

/-- Witness for C7: a failing database turns a concrete query into the
generic failure message. -/
theorem execute_sql_error_generic_witness :
    (mkState [ "hi"] "user_details" "SELECT 1").response ≠ ""
  ∧ env0.db "SELECT 1" = Except.error "connection refused"
  ∧ (execute_sql env0 (mkState [ "hi"] "user_details" "SELECT 1")).1
    = { mkState [ "hi"] "user_details" "SELECT 1" with response := "Database query failed." } :=
  ⟨by decide, rfl,
   (execute_sql_error_generic env0 (mkState [ "hi"] "user_details" "SELECT 1")
     "connection refused" (by decide) rfl).1⟩

/-- C8: when schema introspection yields the empty list,
generate_sql_query answers with the schema-unavailable response and its
only external call is the schema introspection, never the oracle. -/
theorem generate_sql_query_schema_unavailable (env : Env) (s : ChatState)
    (h : env.schema = []) :
    generate_sql_query env s
      = ({ s with response := "Database schema unavailable." }, [ ExtCall.schemaCall])
    ∧ ∀ p, ExtCall.oracleCall p ∉ (generate_sql_query env s).2 := by
  have h1 : generate_sql_query env s
      = ({ s with response := "Database schema unavailable." }, [ ExtCall.schemaCall]) := by
    unfold generate_sql_query
    simp [h]
  refine ⟨h1, ?_⟩
  intro p
  rw [h1]
  simp

/-- Witness for C8: with the empty schema of env0 the stage answers the
schema-unavailable message without consulting the oracle. -/
theorem generate_sql_query_schema_unavailable_witness :
    env0.schema = []
  ∧ generate_sql_query env0 (mkState [ "hi"] "user_details" "")
    = ({ mkState [ "hi"] "user_details" "" with response := "Database schema unavailable." },
       [ ExtCall.schemaCall])
  ∧ ExtCall.oracleCall "p" ∉ (generate_sql_query env0 (mkState [ "hi"] "user_details" "")).2 :=
  ⟨rfl,
   (generate_sql_query_schema_unavailable env0 (mkState [ "hi"] "user_details" "") rfl).1,
   (generate_sql_query_schema_unavailable env0 (mkState [ "hi"] "user_details" "") rfl).2 "p"⟩

/-- C10: for a SQL-group intent with an empty schema, the router still
sends the state through generate_sql_query, whose schema-unavailable text
lands in response; execute_sql then treats that text as SQL, calls the
database with it, and on the resulting error the text reaching
generate_response is the generic "Database query failed." instead of the
schema-unavailable message. -/
theorem schema_unavailable_masked (env : Env) (s : ChatState) (e : String)
    (hschema : env.schema = [])
    (hdb : env.db "Database schema unavailable." = Except.error e)
    (hintent : s.intent ∈ sql_intents) :
    intent_router s = "generate_sql_query"
  ∧ (generate_sql_query env s).1.response = "Database schema unavailable."
  ∧ (execute_sql env (generate_sql_query env s).1).2
      = [ ExtCall.dbCall "Database schema unavailable."]
  ∧ (execute_sql env (generate_sql_query env s).1).1.response = "Database query failed." := by
  have hr : intent_router s = "generate_sql_query" := by
    unfold intent_router
    rw [if_pos hintent]
  have hg : generate_sql_query env s
      = ({ s with response := "Database schema unavailable." }, [ ExtCall.schemaCall]) := by
    unfold generate_sql_query
    simp [hschema]
  have he : execute_sql env (generate_sql_query env s).1
      = ({ s with response := "Database query failed." },
         [ ExtCall.dbCall "Database schema unavailable."]) := by
    rw [hg]
    unfold execute_sql
    rw [show ({ s with response := "Database schema unavailable." } : ChatState).response
        = "Database schema unavailable." from rfl]
    rw [if_neg (by decide : ¬("Database schema unavailable." : String) = "")]
    rw [hdb]
  exact ⟨hr, by rw [hg], by rw [he], by rw [he]⟩

/-- Witness for C10: with env0's empty schema and failing database, an
attendance request ends with the generic failure message entering
generate_response. -/
theorem schema_unavailable_masked_witness :
    env0.schema = []
  ∧ env0.db "Database schema unavailable." = Except.error "connection refused"
  ∧ (mkState [ "show my attendance"] "attendance" "").intent ∈ sql_intents
  ∧ (execute_sql env0
      (generate_sql_query env0 (mkState [ "show my attendance"] "attendance" "")).1).1.response
    = "Database query failed." :=
  ⟨rfl, rfl, by decide,
   (schema_unavailable_masked env0 (mkState [ "show my attendance"] "attendance" "")
     "connection refused" rfl rfl (by decide)).2.2.2⟩

theorem classify_intent_frame (env : Env) (s : ChatState) (n r : Option String)
    (u : Option (List (String × String))) :
    classify_intent env { s with name := n, requested_field := r, userData := u }
      = ({ (classify_intent env s).1 with name := n, requested_field := r, userData := u },
         (classify_intent env s).2) := by
  unfold classify_intent
  simp only [last_message]
  by_cases h : (s.messages.getLast?).getD "" = ""
  · simp [h]
  · simp only [h, if_false]
    cases env.oracle (classify_prompt ((s.messages.getLast?).getD "")) <;> rfl

theorem generate_sql_query_frame (env : Env) (s : ChatState) (n r : Option String)
    (u : Option (List (String × String))) :
    generate_sql_query env { s with name := n, requested_field := r, userData := u }
      = ({ (generate_sql_query env s).1 with name := n, requested_field := r, userData := u },
         (generate_sql_query env s).2) := by
  unfold generate_sql_query
  simp only [last_message]
  by_cases h : env.schema.isEmpty
  · simp [h]
  · simp only [h, if_false]
    cases env.oracle (sql_prompt (schema_string env.schema) ((s.messages.getLast?).getD "")
      (filtering_instruction ((s.messages.getLast?).getD "") s.user_email)) <;> rfl

theorem execute_sql_frame (env : Env) (s : ChatState) (n r : Option String)
    (u : Option (List (String × String))) :
    execute_sql env { s with name := n, requested_field := r, userData := u }
      = ({ (execute_sql env s).1 with name := n, requested_field := r, userData := u },
         (execute_sql env s).2) := by
  unfold execute_sql
  by_cases h : s.response = ""
  · simp [h]
  · simp only [h, if_false]
    cases hdb : env.db s.response with
    | error e => simp [hdb]
    | ok rows => cases hf : format_response rows <;> simp [hdb, hf]

theorem get_policy_frame (env : Env) (s : ChatState) (n r : Option String)
    (u : Option (List (String × String))) :
    get_policy env { s with name := n, requested_field := r, userData := u }
      = ({ (get_policy env s).1 with name := n, requested_field := r, userData := u },
         (get_policy env s).2) := by
  unfold get_policy
  simp only [last_message]
  cases findPolicy ((s.messages.getLast?).getD "") env.policies <;> rfl

theorem generate_response_frame (env : Env) (s : ChatState) (r : Option String)
    (u : Option (List (String × String))) :
    generate_response env { s with requested_field := r, userData := u }
      = ({ (generate_response env s).1 with requested_field := r, userData := u },
         (generate_response env s).2) := by
  unfold generate_response
  simp only [last_message]
  by_cases h : s.intent ≠ "general"
  · rw [if_pos h]
    cases ho : env.oracle ( "Respond as an HR assistant.\nUser: " ++ (s.messages.getLast?).getD ""
      ++ " answer: " ++ s.response) <;> simp [ho]
  · rw [if_neg h]
    cases ho : env.oracle ( "Respond as an HR assistant.\nUser: "
      ++ (s.messages.getLast?).getD "") <;> simp [ho]

theorem generate_response_preserves (env : Env) (s : ChatState) :
    (generate_response env s).1.name = s.name
  ∧ (generate_response env s).1.requested_field = s.requested_field
  ∧ (generate_response env s).1.userData = s.userData := by
  unfold generate_response
  simp only [last_message]
  by_cases h : s.intent ≠ "general"
  · rw [if_pos h]
    cases ho : env.oracle ( "Respond as an HR assistant.\nUser: " ++ (s.messages.getLast?).getD ""
      ++ " answer: " ++ s.response) <;> simp [ho]
  · rw [if_neg h]
    cases ho : env.oracle ( "Respond as an HR assistant.\nUser: "
      ++ (s.messages.getLast?).getD "") <;> simp [ho]

/-- C9 (amended): the fields name, requested_field and userData are never
populated: every stage's output carries them over unchanged.  The fields
requested_field and userData are also never read: every stage commutes
with updating them; classify_intent, generate_sql_query, execute_sql and
get_policy commute with updating name as well.  (generate_response,
however, does read name — see the counterexample — so the original
claim's "never read by any workflow stage" holds only for the other four
stages and the other two fields.) -/
theorem reserved_fields_frame (env : Env) (s : ChatState) (n r : Option String)
    (u : Option (List (String × String))) :
    ((classify_intent env s).1.name = s.name
      ∧ (classify_intent env s).1.requested_field = s.requested_field
      ∧ (classify_intent env s).1.userData = s.userData)
  ∧ ((generate_sql_query env s).1.name = s.name
      ∧ (generate_sql_query env s).1.requested_field = s.requested_field
      ∧ (generate_sql_query env s).1.userData = s.userData)
  ∧ ((execute_sql env s).1.name = s.name
      ∧ (execute_sql env s).1.requested_field = s.requested_field
      ∧ (execute_sql env s).1.userData = s.userData)
  ∧ ((get_policy env s).1.name = s.name
      ∧ (get_policy env s).1.requested_field = s.requested_field
      ∧ (get_policy env s).1.userData = s.userData)
  ∧ ((generate_response env s).1.name = s.name
      ∧ (generate_response env s).1.requested_field = s.requested_field
      ∧ (generate_response env s).1.userData = s.userData)
  ∧ classify_intent env { s with name := n, requested_field := r, userData := u }
      = ({ (classify_intent env s).1 with
            name := n, requested_field := r, userData := u },
         (classify_intent env s).2)
  ∧ generate_sql_query env { s with name := n, requested_field := r, userData := u }
      = ({ (generate_sql_query env s).1 with
            name := n, requested_field := r, userData := u },
         (generate_sql_query env s).2)
  ∧ execute_sql env { s with name := n, requested_field := r, userData := u }
      = ({ (execute_sql env s).1 with
            name := n, requested_field := r, userData := u },
         (execute_sql env s).2)
  ∧ get_policy env { s with name := n, requested_field := r, userData := u }
      = ({ (get_policy env s).1 with
            name := n, requested_field := r, userData := u },
         (get_policy env s).2)
  ∧ generate_response env { s with requested_field := r, userData := u }
      = ({ (generate_response env s).1 with
            requested_field := r, userData := u },
         (generate_response env s).2) := by
  have h1 : classify_intent env s
      = ({ (classify_intent env s).1 with
            name := s.name, requested_field := s.requested_field, userData := s.userData },
         (classify_intent env s).2) :=
    classify_intent_frame env s s.name s.requested_field s.userData
  have h2 : generate_sql_query env s
      = ({ (generate_sql_query env s).1 with
            name := s.name, requested_field := s.requested_field, userData := s.userData },
         (generate_sql_query env s).2) :=
    generate_sql_query_frame env s s.name s.requested_field s.userData
  have h3 : execute_sql env s
      = ({ (execute_sql env s).1 with
            name := s.name, requested_field := s.requested_field, userData := s.userData },
         (execute_sql env s).2) :=
    execute_sql_frame env s s.name s.requested_field s.userData
  have h4 : get_policy env s
      = ({ (get_policy env s).1 with
            name := s.name, requested_field := s.requested_field, userData := s.userData },
         (get_policy env s).2) :=
    get_policy_frame env s s.name s.requested_field s.userData
  refine ⟨⟨congrArg (fun p => p.1.name) h1, congrArg (fun p => p.1.requested_field) h1,
           congrArg (fun p => p.1.userData) h1⟩,
          ⟨congrArg (fun p => p.1.name) h2, congrArg (fun p => p.1.requested_field) h2,
           congrArg (fun p => p.1.userData) h2⟩,
          ⟨congrArg (fun p => p.1.name) h3, congrArg (fun p => p.1.requested_field) h3,
           congrArg (fun p => p.1.userData) h3⟩,
          ⟨congrArg (fun p => p.1.name) h4, congrArg (fun p => p.1.requested_field) h4,
           congrArg (fun p => p.1.userData) h4⟩,
          generate_response_preserves env s,
          classify_intent_frame env s n r u,
          generate_sql_query_frame env s n r u,
          execute_sql_frame env s n r u,
          get_policy_frame env s n r u,
          generate_response_frame env s r u⟩

/-- Counterexample to C9 as stated: generate_response does read the name
field.  Two states identical except for name yield different responses,
because the oracle's "[Your Name]" placeholder is replaced by the
sender's name (defaulting to "User" when name is unset). -/
theorem generate_response_reads_name_counterexample :
    ({ mkState [ "hi"] "general" "" with name := some "Alice" } : ChatState).messages
      = (mkState [ "hi"] "general" "").messages
  ∧ (generate_response env2 (mkState [ "hi"] "general" "")).1.response = "Hello User"
  ∧ (generate_response env2 { mkState [ "hi"] "general" "" with name := some "Alice" }).1.response
      = "Hello Alice"
  ∧ (generate_response env2 (mkState [ "hi"] "general" "")).1.response
      ≠ (generate_response env2 { mkState [ "hi"] "general" "" with name := some "Alice" }).1.response :=
  ⟨rfl, by decide, by decide, by decide⟩
